import Mathlib

/-!
Verification of the `playwright_dom_agent` repository core:
the snapshot engine (`src/snapshot.py`, class `PageSnapshot`),
the action resolution/execution engine
(`src/playwright_llm_agent.py`, `PlaywrightLLMAgent.execute_action`), and
the orchestration loop (`PlaywrightLLMAgent.process_command`).

The Python code is shallowly embedded: browser/LLM effects become explicit
environments of oracle functions, mutable object state becomes explicit
state passing, exceptions become `Option`-valued outcomes, and every Python
string operation used by the code is reimplemented on Lean `String`.
-/

namespace DomAgent

/-! ### String helpers (models of the Python string operations used) -/

/-- Model of Python `needle in haystack` on lists of characters:
`needle` occurs as a contiguous sublist of `haystack`. -/
def subList (needle : List Char) : List Char → Bool
  | [] => needle.isEmpty
  | c :: rest => needle.isPrefixOf (c :: rest) || subList needle rest

/-- Model of Python substring containment `needle in haystack`. -/
def containsSub (haystack needle : String) : Bool :=
  subList needle.data haystack.data

/-- Model of Python `"\n".join(lines)` (and of joining diff blocks). -/
def joinNl : List String → String
  | [] => ""
  | [x] => x
  | x :: y :: rest => x ++ "\n" ++ joinNl (y :: rest)

/-- Model of Python `str.splitlines(keepends=False)` for the line boundaries
that can occur in the snapshot strings handled by this program
(`\n`, `\r`, `\r\n`): splits at each boundary and drops a trailing empty
line, so `"a\n"` gives `["a"]` and `""` gives `[]`. -/
def splitlinesAux : List Char → List Char → List String
  | [], acc => if acc.isEmpty then [] else [String.mk acc.reverse]
  | '\r' :: '\n' :: rest, acc => String.mk acc.reverse :: splitlinesAux rest []
  | '\r' :: rest, acc => String.mk acc.reverse :: splitlinesAux rest []
  | '\n' :: rest, acc => String.mk acc.reverse :: splitlinesAux rest []
  | c :: rest, acc => splitlinesAux rest (c :: acc)

/-- Model of Python `str.splitlines(keepends=False)`. -/
def pySplitlines (s : String) : List String :=
  splitlinesAux s.data []

/-- Model of Python `str.split('\n')`: split at every newline, keeping
empty fields (so `""` gives `[""]` and `"a\n"` gives `["a", ""]`). -/
def pySplitNl : List Char → List Char → List String
  | [], acc => [String.mk acc.reverse]
  | '\n' :: rest, acc => String.mk acc.reverse :: pySplitNl rest []
  | c :: rest, acc => pySplitNl rest (c :: acc)

/-- Model of Python `s.split('\n')`. -/
def pySplitOnNl (s : String) : List String :=
  pySplitNl s.data []

/-- Python truthiness of an optional string (`None` and `""` are falsy). -/
def optTruthy : Option String → Bool
  | none => false
  | some s => s != ""

theorem optTruthy_some (s : String) : optTruthy (some s) = (s != "") := rfl

/-- Whitespace characters recognised by the JS `String.trim` used in the
fallback snapshot (ASCII subset actually occurring in page text). -/
def isSpaceChar (c : Char) : Bool :=
  c = ' ' || c = '\t' || c = '\n' || c = '\r' || c = '\x0b' || c = '\x0c'

/-- Model of JS `text.trim()`: drop leading and trailing whitespace. -/
def jsTrim (s : String) : String :=
  String.mk (((s.data.dropWhile isSpaceChar).reverse.dropWhile isSpaceChar).reverse)

/-- Model of JS `text.slice(0, n)` (and Python `text[:n]`): first `n`
characters. -/
def jsSlice (s : String) (n : Nat) : String :=
  String.mk (s.data.take n)

/-! ### Model of `difflib.unified_diff`

`difflib` is Python standard library, external to this repository.  It is
modelled here as a structural line diff: header lines are produced exactly
when the two line sequences differ, and the output is empty exactly when
they are equal — the only properties of `difflib.unified_diff` that the
code under verification relies on (`PageSnapshot._compute_diff` only tests
the produced list for emptiness and otherwise embeds it verbatim). -/

/-- Tag every line of a pairwise line diff: `' '` unchanged, `'-'` removed,
`'+'` added. -/
def diffTagged : List String → List String → List (Char × String)
  | [], bs => bs.map (fun b => ('+', b))
  | a :: as, [] => ('-', a) :: diffTagged as []
  | a :: as, b :: bs =>
    if a = b then (' ', a) :: diffTagged as bs
    else ('-', a) :: ('+', b) :: diffTagged as bs

/-- Render one tagged diff line in unified-diff style. -/
def renderTag (p : Char × String) : String :=
  String.mk [p.1] ++ p.2

/-- Model of `difflib.unified_diff(old, new, lineterm="", fromfile="prev",
tofile="curr")` as a list of output lines: empty when the inputs are equal,
otherwise file headers, one hunk header and the tagged lines. -/
def unified_diff (old new : List String) : List String :=
  let tagged := diffTagged old new
  if tagged.all (fun p => p.1 = ' ') then []
  else "--- prev" :: "+++ curr" ::
    ("@@ -1," ++ toString old.length ++ " +1," ++ toString new.length ++ " @@") ::
    tagged.map renderTag

/-! ### `PageSnapshot` (src/snapshot.py) -/

/-- Mutable state of a `PageSnapshot` object that the verified claims
depend on: `snapshot_data`, the last stored full formatted snapshot
(`None` initially). -/
structure SnapState where
  snapshot_data : Option String
deriving Repr, DecidableEq

/-- The outcomes of the browser interactions performed during one
`PageSnapshot.capture` call.
* `pre_ok` — `page.url` and `page.wait_for_load_state` raise no exception;
* `direct` — result of `_get_snapshot_direct` (`none` models the method
  returning `None` after catching its own exception; `some ""` models an
  empty evaluation result, which Python treats as falsy);
* `title`, `url` — values read by `_fallback_snapshot` (read but unused in
  its output);
* `body` — raw `document.body.textContent` obtained by the fallback
  evaluation, `none` when any call inside `_fallback_snapshot` raises. -/
structure CaptureEnv where
  pre_ok : Bool
  direct : Option String
  title : String
  url : String
  body : Option String
deriving Repr

/-- `PageSnapshot._compute_diff`: unified diff of the two snapshot strings,
degenerating to the no-structural-changes marker when the diff is empty. -/
def compute_diff (old new : String) : String :=
  let diff_lines := unified_diff (pySplitlines old) (pySplitlines new)
  if diff_lines.isEmpty then "- Page Snapshot (no structural changes)"
  else joinNl ("- Page Snapshot (diff)" :: "```diff" :: (diff_lines ++ ["```"]))

/-- `PageSnapshot._format_snapshot`: wrap the raw snapshot text in the
fixed fenced YAML block. -/
def format_snapshot (snapshot_text : String) : String :=
  joinNl ["- Page Snapshot", "```yaml", snapshot_text, "```"]

/-- `PageSnapshot._fallback_snapshot`: fetches title/URL and a trimmed,
500-character-truncated body text blob; the output embeds only the body
blob.  Any exception yields the explicit error string. -/
def fallback_snapshot (env : CaptureEnv) : String :=
  match env.body with
  | none => "Error: Could not capture page snapshot"
  | some raw =>
    let body_text := jsSlice (jsTrim raw) 500
    joinNl
      ["- Page Snapshot", "```yaml",
       if body_text != "" then "- generic [ref=e1]: " ++ body_text
       else "- generic [ref=e1]: (no content)",
       "```"]

/-- `PageSnapshot._update_cache`: store the new full snapshot. -/
def update_cache (snapshot : String) : SnapState :=
  { snapshot_data := some snapshot }

/-- `PageSnapshot.capture(force_refresh, diff_only, include_all)`,
returning the produced string together with the successor state.
`force_refresh` and `include_all` do not influence control flow in the
embedded state (caching was removed from the source; `include_all` only
selects which JS file the external evaluation runs). -/
def capture (st : SnapState) (env : CaptureEnv)
    (_force_refresh diff_only _include_all : Bool) : String × SnapState :=
  if !env.pre_ok then ("Error: Could not capture page snapshot", st)
  else
    match env.direct with
    | some t =>
      if t != "" then
        let formatted_snapshot := format_snapshot t
        let output_snapshot :=
          if diff_only && optTruthy st.snapshot_data then
            compute_diff (st.snapshot_data.getD "") formatted_snapshot
          else formatted_snapshot
        (output_snapshot, update_cache formatted_snapshot)
      else
        let fallback := fallback_snapshot env
        (if diff_only && optTruthy st.snapshot_data then
          compute_diff (st.snapshot_data.getD "") fallback
        else fallback, st)
    | none =>
      let fallback := fallback_snapshot env
      (if diff_only && optTruthy st.snapshot_data then
        compute_diff (st.snapshot_data.getD "") fallback
      else fallback, st)

/-! ### Actions (`PlaywrightLLMAgent.execute_action`, src/playwright_llm_agent.py) -/

/-- The fields an action dictionary can carry; a missing key is `none`
(Python `dict.get` returns `None`). -/
structure Action where
  -- `var` models the Python key `variable` (a Lean keyword).
  type : Option String := none
  ref : Option String := none
  text : Option String := none
  selector : Option String := none
  value : Option String := none
  url : Option String := none
  summary : Option String := none
  timeout : Option Nat := none
  direction : Option String := none
  amount : Option Nat := none
  var : Option String := none
deriving Repr, DecidableEq

/-- Oracles for the browser interactions `execute_action` performs.
* `count sel` — `page.locator(sel).count()`;
* `clickOk sel` — whether `page.click(sel, ..., force=True)` (or
  `locator.first.click`) returns without raising;
* `fillOk sel` — whether `page.fill(sel, ...)` returns without raising;
* `selErr sel` — the exception message of
  `wait_for_selector`/`select_option` on `sel`, `none` on success;
* `waitSelErr sel` — likewise for a bare `page.wait_for_selector(sel)`;
* `textContent sel` — result of `page.text_content(sel)` (`none` = `None`);
* `scrollErr` — exception message of the scroll evaluation;
* `focusErr sel` / `pressErr` — exception messages of `page.focus` and
  `keyboard.press("Enter")`;
* `gotoErr url` — exception message of `page.goto(url, ...)`;
* `navCapEnv` — environment of the capture performed inside `navigate`;
* `capEnv` — environment of the post-action capture at the end of
  `execute_action`. -/
structure ExecEnv where
  count : String → Nat
  clickOk : String → Bool
  fillOk : String → Bool
  selErr : String → Option String
  waitSelErr : String → Option String
  textContent : String → Option String
  scrollErr : Option String
  focusErr : String → Option String
  pressErr : Option String
  gotoErr : String → Option String
  navCapEnv : CaptureEnv
  capEnv : CaptureEnv

/-- The `success`/`result` pair threaded through the strategy blocks of
the `click` and `type` branches. -/
structure ClickSt where
  success : Bool
  result : String
deriving Repr, DecidableEq

/-- Regex model for `re.search(r'"([^"]+)"', line)`: the first maximal
nonempty run of non-quote characters enclosed in double quotes. -/
def extractQuoted : List Char → Option String
  | [] => none
  | c :: rest =>
    if c = '\x22' then
      let content := rest.takeWhile (fun d => d ≠ '\x22')
      match rest.drop content.length with
      | '\x22' :: _ => if content.isEmpty then extractQuoted rest else some (String.mk content)
      | _ => extractQuoted rest
    else extractQuoted rest

/-- Click strategy 4's scan of the stored snapshot: the first quoted text
on the first line containing `pat` (= `[ref=<ref>]`) that has one; lines
containing `pat` but no quoted text are passed over. -/
def findRefText (lines : List String) (pat : String) : Option String :=
  match lines with
  | [] => none
  | l :: rest =>
    if containsSub l pat then
      match extractQuoted l.data with
      | some t => some t
      | none => findRefText rest pat
    else findRefText rest pat

/-- Click strategy 1: the explicit CSS `selector`, clicked with
`force=True`. -/
def click_strategy_selector (env : ExecEnv) (selector : Option String) (st : ClickSt) : ClickSt :=
  if optTruthy selector && !st.success then
    let sel := selector.getD ""
    if env.count sel > 0 then
      if env.clickOk sel then
        { success := true,
          result := "Successfully clicked element using selector " ++ sel ++ " (force)" }
      else st
    else st
  else st

/-- Click strategy 2: exact visible-text locator `text="<text>"`. -/
def click_strategy_text (env : ExecEnv) (text : Option String) (st : ClickSt) : ClickSt :=
  if optTruthy text && !st.success then
    let t := text.getD ""
    let text_selector := "text=\x22" ++ t ++ "\x22"
    if env.count text_selector > 0 then
      if env.clickOk text_selector then
        { success := true,
          result := "Successfully clicked element using text \x27" ++ t ++ "\x27 (force)" }
      else st
    else st
  else st

/-- Click strategy 3: the `[aria-ref='<ref>']` attribute written onto the
live element during the last capture. -/
def click_strategy_aria (env : ExecEnv) (ref : Option String) (st : ClickSt) : ClickSt :=
  if optTruthy ref && !st.success then
    let r := ref.getD ""
    let aria_selector := "[aria-ref=\x27" ++ r ++ "\x27]"
    if env.count aria_selector > 0 then
      if env.clickOk aria_selector then
        { success := true,
          result := "Successfully clicked element " ++ r ++ " using aria-ref (force)" }
      else st
    else st
  else st

/-- Click strategy 4: extract the element's label from the line of the
last stored snapshot containing `[ref=<ref>]` and retry a text match. -/
def click_strategy_snapshot_text (env : ExecEnv) (snapData : Option String)
    (ref : Option String) (st : ClickSt) : ClickSt :=
  if optTruthy ref && !st.success then
    let r := ref.getD ""
    let snapshot_text := snapData.getD ""
    let lines := pySplitOnNl snapshot_text
    match findRefText lines ("[ref=" ++ r ++ "]") with
    | some target_text =>
      let text_selector := "text=\x22" ++ target_text ++ "\x22"
      if env.count text_selector > 0 then
        if env.clickOk text_selector then
          { success := true,
            result := "Successfully clicked element " ++ r ++ " using extracted text (force)" }
        else st
      else st
    | none => st
  else st

/-- The generic interactive selectors of click strategy 5. -/
def common_selectors : List String :=
  ["button", "a", "input[type=\x22submit\x22]", "input[type=\x22button\x22]",
   "[role=\x22button\x22]"]

/-- Click strategy 5: click the first element matching the first generic
selector with a nonzero match count.  A raising click aborts the whole
strategy (the `try` in the source wraps the entire `for` loop). -/
def click_strategy_fallback (env : ExecEnv) (st : ClickSt) : ClickSt :=
  if !st.success then
    match common_selectors.find? (fun sel => env.count sel > 0) with
    | some sel =>
      if env.clickOk sel then
        { success := true,
          result := "Successfully clicked first " ++ sel ++ " element as fallback (force)" }
      else st
    | none => st
  else st

/-- The five click strategy blocks in source order, threading the
`success`/`result` state exactly as the Python code does. -/
def clickFlow (env : ExecEnv) (snapData : Option String)
    (ref text selector : Option String) : ClickSt :=
  let st0 : ClickSt := { success := false, result := "Unknown action result" }
  let st1 := click_strategy_selector env selector st0
  let st2 := click_strategy_text env text st1
  let st3 := click_strategy_aria env ref st2
  let st4 := click_strategy_snapshot_text env snapData ref st3
  click_strategy_fallback env st4

/-- Type strategy 1: the explicit CSS `selector`, filled. -/
def type_strategy_selector (env : ExecEnv) (selector : Option String)
    (text : String) (st : ClickSt) : ClickSt :=
  if optTruthy selector && !st.success then
    let sel := selector.getD ""
    if env.count sel > 0 then
      if env.fillOk sel then
        { success := true,
          result := "Successfully typed \x27" ++ text ++ "\x27 into selector " ++ sel }
      else st
    else st
  else st

/-- Type strategy 2: the `[aria-ref='<ref>']` attribute. -/
def type_strategy_aria (env : ExecEnv) (ref : Option String)
    (text : String) (st : ClickSt) : ClickSt :=
  if optTruthy ref && !st.success then
    let r := ref.getD ""
    let aria_selector := "[aria-ref=\x27" ++ r ++ "\x27]"
    if env.count aria_selector > 0 then
      if env.fillOk aria_selector then
        { success := true,
          result := "Successfully typed \x27" ++ text ++ "\x27 into element " ++ r ++ " using aria-ref" }
      else st
    else st
  else st

/-- The generic input-like selectors of the type fallback. -/
def input_selectors : List String :=
  ["input[type=\x22text\x22]", "input[type=\x22search\x22]", "input:not([type])",
   "textarea", "[contenteditable]"]

/-- Type strategy 3: fill the first element matching the first generic
input selector with a nonzero match count. -/
def type_strategy_fallback (env : ExecEnv) (text : String) (st : ClickSt) : ClickSt :=
  if !st.success then
    match input_selectors.find? (fun sel => env.count sel > 0) with
    | some sel =>
      if env.fillOk sel then
        { success := true,
          result := "Successfully typed \x27" ++ text ++ "\x27 into " ++ sel ++ " element" }
      else st
    | none => st
  else st

/-- The three type strategy blocks in source order. -/
def typeFlow (env : ExecEnv) (ref selector : Option String) (text : String) : ClickSt :=
  let st0 : ClickSt := { success := false, result := "Unknown action result" }
  let st1 := type_strategy_selector env selector text st0
  let st2 := type_strategy_aria env ref text st1
  type_strategy_fallback env text st2

/-- `PlaywrightLLMAgent.navigate`: goto plus a forced-refresh capture;
any exception yields the explicit error string and leaves the snapshot
state unchanged. -/
def navigate (env : ExecEnv) (st : SnapState) (url : String) : String × SnapState :=
  match env.gotoErr url with
  | some _ => ("Error: Could not navigate to page", st)
  | none => capture st env.navCapEnv true false false

/-- Result of the action-dispatch portion of `execute_action`:
the outcome string, whether control fell through to the post-action
snapshot block (`false` for the `return` statements inside the dispatch),
and the snapshot state after the dispatch itself. -/
structure Dispatched where
  result : String
  fell_through : Bool
  state : SnapState
deriving Repr, DecidableEq

/-- The `action_type` dispatch of `execute_action` (the body of the big
`try`), excluding the trailing post-action snapshot block. -/
def dispatch (env : ExecEnv) (st : SnapState) (a : Action) (t : String) : Dispatched :=
  if t = "click" then
    if !(optTruthy a.ref || optTruthy a.text || optTruthy a.selector) then
      ⟨"Error: No ref, text, or selector specified for click action", false, st⟩
    else
      let stC := clickFlow env st.snapshot_data a.ref a.text a.selector
      if stC.success then ⟨stC.result, true, st⟩
      else ⟨"Error: Could not find and click element", false, st⟩
  else if t = "type" then
    let text := a.text.getD ""
    if !(optTruthy a.ref || optTruthy a.selector) then
      ⟨"Error: No ref or selector specified for type action", false, st⟩
    else
      let stT := typeFlow env a.ref a.selector text
      if stT.success then ⟨stT.result, true, st⟩
      else ⟨"Error: Could not find input element", false, st⟩
  else if t = "select" then
    let value := a.value.getD ""
    if !(optTruthy a.ref || optTruthy a.selector) then
      ⟨"Error: No ref or selector specified for select action", false, st⟩
    else
      let target_selector :=
        if optTruthy a.selector then a.selector.getD ""
        else "[aria-ref=\x27" ++ a.ref.getD "" ++ "\x27]"
      match env.selErr target_selector with
      | some m => ⟨"Select operation failed: " ++ m, false, st⟩
      | none => ⟨"Successfully selected \x27" ++ value ++ "\x27 in element", true, st⟩
  else if t = "wait" then
    match a.timeout with
    | some ms => ⟨"Waited for " ++ toString ms ++ "ms", true, st⟩
    | none =>
      match a.selector with
      | some sel =>
        match env.waitSelErr sel with
        | some m => ⟨"Error executing wait: " ++ m, true, st⟩
        | none => ⟨"Waited for selector " ++ sel, true, st⟩
      | none => ⟨"Error: Wait action requires timeout or selector", true, st⟩
  else if t = "extract" then
    if !(optTruthy a.ref) then ⟨"Error: No ref specified for extract action", false, st⟩
    else
      let sel := "[aria-ref=\x27" ++ a.ref.getD "" ++ "\x27]"
      match env.waitSelErr sel with
      | some m => ⟨"Error executing extract: " ++ m, true, st⟩
      | none =>
        match env.textContent sel with
        | some txt =>
          if txt != "" then ⟨"Extracted text: " ++ jsSlice txt 100 ++ "...", true, st⟩
          else ⟨"Extracted text: None...", true, st⟩
        | none => ⟨"Extracted text: None...", true, st⟩
  else if t = "scroll" then
    let direction := a.direction.getD "down"
    let amount := a.amount.getD 300
    match env.scrollErr with
    | some m => ⟨"Error executing scroll: " ++ m, true, st⟩
    | none => ⟨"Scrolled " ++ direction ++ " by " ++ toString amount ++ "px", true, st⟩
  else if t = "enter" then
    let focus_err :=
      if optTruthy a.ref then env.focusErr ("[aria-ref=\x27" ++ a.ref.getD "" ++ "\x27]")
      else if optTruthy a.selector then env.focusErr (a.selector.getD "")
      else none
    match focus_err with
    | some m => ⟨"Enter key press failed: " ++ m, false, st⟩
    | none =>
      match env.pressErr with
      | some m => ⟨"Enter key press failed: " ++ m, false, st⟩
      | none => ⟨"Pressed Enter key", true, st⟩
  else if t = "navigate" then
    if !(optTruthy a.url) then ⟨"Error: No url specified for navigate action", false, st⟩
    else
      let url := a.url.getD ""
      let nav := navigate env st url
      ⟨"Navigated to " ++ url ++ ". Snapshot length: " ++ toString nav.1.length ++ " chars",
        true, nav.2⟩
  else if t = "finish" then
    ⟨"Task finished: " ++ a.summary.getD "Task completed", true, st⟩
  else
    ⟨"Error: Unknown action type \x27" ++ t ++ "\x27", true, st⟩

/-- Outcome of a full `execute_action` call: the returned string, whether
the post-action snapshot block ran, and the final snapshot state.
(The Python message for a missing action type embeds the dict's repr;
here the derived `Repr` of the action stands in for it.) -/
structure ExecResult where
  result : String
  post_capture : Bool
  state : SnapState
deriving Repr, DecidableEq

/-- `PlaywrightLLMAgent.execute_action`: validation, dispatch, then — only
when control falls through the dispatch — the post-action snapshot block,
whose own success or failure is swallowed (`try/except` around it) and
never alters the returned result. -/
def execute_action (env : ExecEnv) (st : SnapState) (action : Option Action) : ExecResult :=
  match action with
  | none => ⟨"No action to execute", false, st⟩
  | some a =>
    if !(optTruthy a.type) then
      ⟨"Error: No action type specified in " ++ toString (repr a), false, st⟩
    else
      let t := a.type.getD ""
      let d := dispatch env st a t
      if d.fell_through then
        ⟨d.result, true, (capture d.state env.capEnv false false false).2⟩
      else
        ⟨d.result, false, d.state⟩

/-! ### Orchestration loop (`PlaywrightLLMAgent.process_command`,
src/playwright_llm_agent.py lines 929-1011) -/

/-- One entry of `self.action_history`. -/
structure HistoryEntry where
  action : Action
  result : String
  success : Bool
deriving Repr, DecidableEq

/-- How a `process_command` run ended:
* `abortedInitial` — the initial capture contained `"Error:"` (early
  `return` before the loop);
* `finished s` — a `finish` action was seen (its summary surfaced);
* `snapshotAbort` — the `break` on `"Error:"` in the current snapshot;
* `budget` — the `while` guard `action_count < max_actions` failed;
* `noAction` — the `while` guard failed because the planner returned no
  action. -/
inductive LoopExit where
  | abortedInitial
  | finished (summary : String)
  | snapshotAbort
  | budget
  | noAction
deriving Repr, DecidableEq

/-- Observable outcome of a run: exit cause, accumulated history, number
of `execute_action` invocations. -/
structure LoopResult where
  exit : LoopExit
  history : List HistoryEntry
  execCount : Nat
deriving Repr, DecidableEq

/-- Oracles for one `process_command` run:
* `initialCapture` — result of the initial `self.snapshot.capture()`;
* `initialAction` — action of `get_initial_plan` (after normalisation);
* `exec k a` — outcome string of `execute_action` at iteration `k`;
* `recapture k` — result of the forced `self.snapshot.capture` performed
  after the action of iteration `k` (on failure, or for page-changing
  action types);
* `nextAction k` — action returned by `get_next_action` at iteration `k`
  (`none` models a malformed planner response). -/
structure LoopEnv where
  initialCapture : String
  initialAction : Option Action
  exec : Nat → Action → String
  recapture : Nat → String
  nextAction : Nat → Option Action

/-- `_should_update_snapshot`'s set of page-changing action types. -/
def changing_actions : List String :=
  ["click", "type", "select", "scroll", "navigate", "enter"]

/-- `PlaywrightLLMAgent._should_update_snapshot`. -/
def should_update_snapshot (a : Action) : Bool :=
  changing_actions.contains (a.type.getD "")

/-- The current snapshot after one executed action: a forced recapture
when the outcome contains "Error" or the action type is page-changing,
otherwise the previous current snapshot is reused. -/
def nextSnapshot (env : LoopEnv) (count : Nat) (a : Action) (cur : String) : String :=
  if containsSub (env.exec count a) "Error" || should_update_snapshot a
  then env.recapture count else cur

/-- The `while action and action_count < max_actions` loop of
`process_command`.  `fuel` is `max_actions - action_count` (the loop
increments `action_count` exactly when `fuel` decrements), `count` is
`action_count` itself (it indexes the planner and capture oracles). -/
def loopAux (env : LoopEnv) : Nat → Option Action → String → List HistoryEntry →
    Nat → Nat → LoopResult
  | _, none, _, hist, _, execs => ⟨.noAction, hist, execs⟩
  | 0, some _, _, hist, _, execs => ⟨.budget, hist, execs⟩
  | fuel + 1, some a, current, hist, count, execs =>
    if a.type = some "finish" then
      ⟨.finished (a.summary.getD "No summary provided"), hist, execs⟩
    else
      let result := env.exec count a
      let success := !(containsSub result "Error")
      let hist2 := hist ++ [⟨a, result, success⟩]
      let current2 := nextSnapshot env count a current
      if containsSub current2 "Error:" then ⟨.snapshotAbort, hist2, execs + 1⟩
      else loopAux env fuel (env.nextAction count) current2 hist2 (count + 1) (execs + 1)

/-- `PlaywrightLLMAgent.process_command` with `max_actions = 15`:
clear the history, take the initial capture (returning immediately if it
contains `"Error:"`), get the initial plan, then run the action loop. -/
def process_command (env : LoopEnv) : LoopResult :=
  if containsSub env.initialCapture "Error:" then ⟨.abortedInitial, [], 0⟩
  else loopAux env 15 env.initialAction env.initialCapture [] 0 0

/-! ### Spec-side strategy descriptions

The specification describes click/type resolution as an ordered list of
independent strategies, tried in a fixed order and stopping at the first
success; a strategy whose locator matches zero elements is skipped.  The
following definitions formalise that description (from the spec's words,
for comparison with the source-faithful `clickFlow`/`typeFlow`). -/

/-- First defined value in an ordered list of strategy outcomes. -/
def firstSome : List (Option String) → Option String
  | [] => none
  | some r :: _ => some r
  | none :: rest => firstSome rest

/-- Outcome of one simple strategy: applicable, nonzero match count and a
successful click give its message; otherwise the strategy yields nothing. -/
def strategyOutcome (applicable : Bool) (ok : String → Bool) (env : ExecEnv)
    (sel msg : String) : Option String :=
  if applicable && env.count sel > 0 && ok sel then some msg else none

/-- The five click strategies of the spec, as independent outcomes in the
specified order. -/
def clickStrategies (env : ExecEnv) (snapData : Option String)
    (ref text selector : Option String) : List (Option String) :=
  [ strategyOutcome (optTruthy selector) env.clickOk env (selector.getD "")
      ("Successfully clicked element using selector " ++ selector.getD "" ++ " (force)"),
    strategyOutcome (optTruthy text) env.clickOk env ("text=\x22" ++ text.getD "" ++ "\x22")
      ("Successfully clicked element using text \x27" ++ text.getD "" ++ "\x27 (force)"),
    strategyOutcome (optTruthy ref) env.clickOk env
      ("[aria-ref=\x27" ++ ref.getD "" ++ "\x27]")
      ("Successfully clicked element " ++ ref.getD "" ++ " using aria-ref (force)"),
    (if optTruthy ref then
      match findRefText (pySplitOnNl (snapData.getD "")) ("[ref=" ++ ref.getD "" ++ "]") with
      | some t => strategyOutcome true env.clickOk env ("text=\x22" ++ t ++ "\x22")
          ("Successfully clicked element " ++ ref.getD "" ++ " using extracted text (force)")
      | none => none
    else none),
    (match common_selectors.find? (fun sel => env.count sel > 0) with
     | some sel =>
       if env.clickOk sel then
         some ("Successfully clicked first " ++ sel ++ " element as fallback (force)")
       else none
     | none => none) ]

/-- Spec-side click resolution: first success among the ordered
strategies. -/
def clickSpec (env : ExecEnv) (snapData : Option String)
    (ref text selector : Option String) : Option String :=
  firstSome (clickStrategies env snapData ref text selector)

/-- Source-side click resolution outcome: the strategy-threading result
of `clickFlow`, as an optional success message. -/
def clickOutcome (env : ExecEnv) (snapData : Option String)
    (ref text selector : Option String) : Option String :=
  let st := clickFlow env snapData ref text selector
  if st.success then some st.result else none

/-- The three type strategies of the spec, in the specified order:
explicit selector, ref-based attribute, generic input fallback. -/
def typeStrategies (env : ExecEnv) (ref selector : Option String)
    (text : String) : List (Option String) :=
  [ strategyOutcome (optTruthy selector) env.fillOk env (selector.getD "")
      ("Successfully typed \x27" ++ text ++ "\x27 into selector " ++ selector.getD ""),
    strategyOutcome (optTruthy ref) env.fillOk env
      ("[aria-ref=\x27" ++ ref.getD "" ++ "\x27]")
      ("Successfully typed \x27" ++ text ++ "\x27 into element " ++ ref.getD "" ++ " using aria-ref"),
    (match input_selectors.find? (fun sel => env.count sel > 0) with
     | some sel =>
       if env.fillOk sel then
         some ("Successfully typed \x27" ++ text ++ "\x27 into " ++ sel ++ " element")
       else none
     | none => none) ]

/-- Spec-side type resolution: first success among the ordered
strategies. -/
def typeSpec (env : ExecEnv) (ref selector : Option String) (text : String) : Option String :=
  firstSome (typeStrategies env ref selector text)

/-- Source-side type resolution outcome. -/
def typeOutcome (env : ExecEnv) (ref selector : Option String) (text : String) : Option String :=
  let st := typeFlow env ref selector text
  if st.success then some st.result else none

/-! ### Capture-call sequences (for the `snapshot_data` invariant) -/

/-- Arguments of one `PageSnapshot.capture` call. -/
structure CaptureCall where
  env : CaptureEnv
  force_refresh : Bool
  diff_only : Bool
  include_all : Bool

/-- Run a sequence of `capture` calls, threading the state. -/
def runCaptures (st : SnapState) : List CaptureCall → SnapState
  | [] => st
  | c :: rest => runCaptures (capture st c.env c.force_refresh c.diff_only c.include_all).2 rest

/-- The formatted text a capture stores when its direct path succeeds
(`_get_snapshot_direct` returned a truthy string with no prior
exception), and `none` otherwise. -/
def directSuccess (env : CaptureEnv) : Option String :=
  if env.pre_ok then
    match env.direct with
    | some t => if t != "" then some (format_snapshot t) else none
    | none => none
  else none

/-- Full formatted text of the most recent successful direct capture in a
call sequence, starting from `acc`. -/
def lastFullSnapshot (acc : Option String) : List CaptureCall → Option String
  | [] => acc
  | c :: rest =>
    lastFullSnapshot (match directSuccess c.env with | some f => some f | none => acc) rest

/-! ## Lemmas about the snapshot engine -/

theorem diffTagged_self (l : List String) : diffTagged l l = l.map (fun a => (' ', a)) := by
  induction l with
  | nil => rfl
  | cons a as ih => simp [diffTagged, ih]

theorem unified_diff_self (l : List String) : unified_diff l l = [] := by
  simp [unified_diff, diffTagged_self, List.all_eq_true]

theorem compute_diff_self (s : String) :
    compute_diff s s = "- Page Snapshot (no structural changes)" := by
  simp [compute_diff, unified_diff_self]

theorem format_snapshot_ne_empty (t : String) : (format_snapshot t == "") = false := by
  simp only [beq_eq_false_iff_ne, ne_eq, format_snapshot, joinNl]
  intro h
  have hd := congrArg String.data h
  simp [String.data_append] at hd

/-- The state transition of `capture`: the formatted text is stored on
the direct-success path and the state is unchanged otherwise. -/
theorem capture_state (st : SnapState) (env : CaptureEnv) (f d i : Bool) :
    (capture st env f d i).2 =
      match directSuccess env with
      | some fmt => { snapshot_data := some fmt }
      | none => st := by
  unfold capture directSuccess update_cache
  cases hp : env.pre_ok <;> cases hd : env.direct <;> simp
  rename_i t
  by_cases ht : t = "" <;> simp [ht]

theorem runCaptures_data (st : SnapState) (calls : List CaptureCall) :
    (runCaptures st calls).snapshot_data = lastFullSnapshot st.snapshot_data calls := by
  induction calls generalizing st with
  | nil => rfl
  | cons c rest ih =>
    simp only [runCaptures, lastFullSnapshot]
    rw [ih, capture_state]
    cases directSuccess c.env <;> rfl

/-! ## Claim C2 -/

/-- C2: a `capture(diff_only=True)` whose direct sampling succeeds returns,
when a previous full snapshot is stored, the unified line-diff between the
stored formatted text and the newly formatted text; the diff of a text
with itself is the literal no-structural-changes marker, so capturing the
same page twice (second time with `diff_only=True`) yields the marker; and
with no stored previous snapshot `diff_only` is ignored and the full
formatted text is returned. -/
theorem C2_diff_only_capture :
    (∀ (st : SnapState) (env : CaptureEnv) (f i : Bool) (prev t : String),
      st.snapshot_data = some prev → prev ≠ "" →
      env.pre_ok = true → env.direct = some t → t ≠ "" →
      (capture st env f true i).1 = compute_diff prev (format_snapshot t)) ∧
    (∀ old : String, compute_diff old old = "- Page Snapshot (no structural changes)") ∧
    (∀ (st : SnapState) (env env2 : CaptureEnv) (f d i f2 i2 : Bool) (t : String),
      env.pre_ok = true → env.direct = some t → t ≠ "" →
      env2.pre_ok = true → env2.direct = some t →
      (capture (capture st env f d i).2 env2 f2 true i2).1 =
        "- Page Snapshot (no structural changes)") ∧
    (∀ (st : SnapState) (env : CaptureEnv) (f i : Bool) (t : String),
      st.snapshot_data = none →
      env.pre_ok = true → env.direct = some t → t ≠ "" →
      (capture st env f true i).1 = format_snapshot t) := by
  refine ⟨?_, compute_diff_self, ?_, ?_⟩
  · intro st env f i prev t hst hprev hp hd ht
    simp [capture, hst, hprev, hp, hd, ht, optTruthy]
  · intro st env env2 f d i f2 i2 t hp hd ht hp2 hd2
    rw [capture_state]
    have hds : directSuccess env = some (format_snapshot t) := by
      simp [directSuccess, hp, hd, ht]
    rw [hds]
    have hne : format_snapshot t ≠ "" := by
      have := format_snapshot_ne_empty t
      simpa [beq_eq_false_iff_ne] using this
    simp [capture, hp2, hd2, ht, hne, optTruthy, compute_diff_self]
  · intro st env f i t hst hp hd ht
    simp [capture, hst, hp, hd, ht, optTruthy]

/-- A stored previous snapshot and a capture environment used to witness
`C2_diff_only_capture` on concrete inputs. -/
def envC2 : CaptureEnv :=
  { pre_ok := true, direct := some "new text", title := "T", url := "U", body := some "b" }

theorem C2_diff_only_capture_witness :
    (capture { snapshot_data := some "old snap" } envC2 false true false).1 =
      compute_diff "old snap" (format_snapshot "new text") ∧
    (capture (capture { snapshot_data := none } envC2 true false false).2
        envC2 false true false).1 = "- Page Snapshot (no structural changes)" ∧
    (capture { snapshot_data := none } envC2 false true false).1 =
      format_snapshot "new text" :=
  ⟨C2_diff_only_capture.1 { snapshot_data := some "old snap" } envC2 false false
      "old snap" "new text" rfl (by decide) rfl rfl (by decide),
   C2_diff_only_capture.2.2.1 { snapshot_data := none } envC2 envC2
      true false false false false "new text" rfl rfl (by decide) rfl rfl,
   C2_diff_only_capture.2.2.2 { snapshot_data := none } envC2 false false
      "new text" rfl rfl rfl (by decide)⟩

/-! ## Claim C9 -/

/-- C9 counterexample: when the direct DOM walk fails, the fallback
snapshot the code produces contains only the body text blob — the page
title and URL, which the claim says the fallback contains, do not occur in
it. -/
theorem C9_counterexample :
    (capture { snapshot_data := none }
        { pre_ok := true, direct := none, title := "The Title",
          url := "https://site.example/x", body := some "hello world" }
        false false false).1 =
      "- Page Snapshot\n```yaml\n- generic [ref=e1]: hello world\n```" ∧
    containsSub "- Page Snapshot\n```yaml\n- generic [ref=e1]: hello world\n```"
      "The Title" = false ∧
    containsSub "- Page Snapshot\n```yaml\n- generic [ref=e1]: hello world\n```"
      "site.example" = false :=
  ⟨by decide, by decide, by decide⟩

/-- C9 (amended): a failure of the direct DOM walk is converted into a
best-effort fallback snapshot whose output embeds only the trimmed,
500-character-truncated body text blob (the title and URL are read but do
not appear in the output, which is independent of them); if even the
fallback fails the fallback text is the explicit error string, returned
as-is by `capture` when no diff is requested, and diffed against the
stored snapshot like any other capture text when `diff_only` is set and a
previous snapshot exists. -/
theorem C9_fallback_behaviour :
    (∀ (env : CaptureEnv) (T U : String),
      fallback_snapshot { env with title := T, url := U } = fallback_snapshot env) ∧
    (∀ raw : String, (jsSlice (jsTrim raw) 500).length ≤ 500) ∧
    (∀ (st : SnapState) (env : CaptureEnv) (f i : Bool),
      env.pre_ok = true → env.direct = none →
      (capture st env f false i).1 = fallback_snapshot env ∧
      (capture st env f false i).2 = st) ∧
    (∀ env : CaptureEnv, env.body = none →
      fallback_snapshot env = "Error: Could not capture page snapshot") ∧
    (∀ (st : SnapState) (env : CaptureEnv) (f i : Bool),
      env.pre_ok = true → env.direct = none → env.body = none →
      (capture st env f false i).1 = "Error: Could not capture page snapshot") ∧
    (∀ (st : SnapState) (env : CaptureEnv) (f i : Bool) (prev : String),
      st.snapshot_data = some prev → prev ≠ "" →
      env.pre_ok = true → env.direct = none →
      (capture st env f true i).1 = compute_diff prev (fallback_snapshot env)) := by
  refine ⟨?_, ?_, ?_, ?_, ?_, ?_⟩
  · intro env T U
    cases env
    rfl
  · intro raw
    show ((jsTrim raw).data.take 500).length ≤ 500
    exact List.length_take_le _ _
  · intro st env f i hp hd
    simp [capture, hp, hd]
  · intro env hb
    simp [fallback_snapshot, hb]
  · intro st env f i hp hd hb
    simp [capture, fallback_snapshot, hp, hd, hb]
  · intro st env f i prev hst hprev hp hd
    simp [capture, hst, hprev, hp, hd, optTruthy]

theorem C9_fallback_behaviour_witness :
    fallback_snapshot
        { pre_ok := true, direct := none, title := "A", url := "B", body := some " x " } =
      fallback_snapshot
        { pre_ok := true, direct := none, title := "T0", url := "U0", body := some " x " } ∧
    (jsSlice (jsTrim " x ") 500).length ≤ 500 ∧
    (capture { snapshot_data := none }
        { pre_ok := true, direct := none, title := "T0", url := "U0", body := some " x " }
        false false false).1 =
      fallback_snapshot
        { pre_ok := true, direct := none, title := "T0", url := "U0", body := some " x " } ∧
    fallback_snapshot
        { pre_ok := true, direct := none, title := "T0", url := "U0", body := none } =
      "Error: Could not capture page snapshot" ∧
    (capture { snapshot_data := some "prev snap" }
        { pre_ok := true, direct := none, title := "T0", url := "U0", body := none }
        false true false).1 =
      compute_diff "prev snap"
        (fallback_snapshot
          { pre_ok := true, direct := none, title := "T0", url := "U0", body := none }) :=
  ⟨C9_fallback_behaviour.1
      { pre_ok := true, direct := none, title := "T0", url := "U0", body := some " x " } "A" "B",
   C9_fallback_behaviour.2.1 " x ",
   (C9_fallback_behaviour.2.2.1 { snapshot_data := none }
      { pre_ok := true, direct := none, title := "T0", url := "U0", body := some " x " }
      false false rfl rfl).1,
   C9_fallback_behaviour.2.2.2.1
      { pre_ok := true, direct := none, title := "T0", url := "U0", body := none } rfl,
   C9_fallback_behaviour.2.2.2.2.2 { snapshot_data := some "prev snap" }
      { pre_ok := true, direct := none, title := "T0", url := "U0", body := none }
      false false "prev snap" rfl (by decide) rfl rfl⟩

/-! ## Claim C10 -/

/-- C10: after any sequence of capture calls starting from a fresh
`PageSnapshot`, the stored `snapshot_data` is exactly the full formatted
text of the most recent capture whose direct path succeeded (`none` if
there is none): diffs, markers, fallback snapshots and error strings are
never stored, and failing capture paths leave the stored data unchanged. -/
theorem C10_snapshot_data_invariant (calls : List CaptureCall) :
    (runCaptures { snapshot_data := none } calls).snapshot_data =
      lastFullSnapshot none calls :=
  runCaptures_data { snapshot_data := none } calls

/-! ## Strategy-threading versus ordered-strategy equivalence -/

/-- One strategy attempt applied to the threaded `success`/`result` state:
a no-op once a strategy has succeeded, otherwise adopts the strategy's
outcome when there is one. -/
def attemptOpt (o : Option String) (st : ClickSt) : ClickSt :=
  if st.success then st
  else
    match o with
    | some m => { success := true, result := m }
    | none => st

/-- A source-shaped strategy block (guard, count check, interaction) equals
one `attemptOpt` of the strategy's independent outcome. -/
theorem strategy_block_eq (app : Bool) (ok : String → Bool) (env : ExecEnv)
    (sel msg : String) (st : ClickSt) :
    (if app && !st.success then
       (if env.count sel > 0 then
         (if ok sel then ({ success := true, result := msg } : ClickSt) else st)
        else st)
     else st) =
      attemptOpt (strategyOutcome app ok env sel msg) st := by
  obtain ⟨succ, res⟩ := st
  cases succ <;> cases app <;>
    simp [attemptOpt, strategyOutcome] <;> split_ifs <;> simp_all

theorem click_strategy_selector_eq (env : ExecEnv) (selector : Option String) (st : ClickSt) :
    click_strategy_selector env selector st =
      attemptOpt (strategyOutcome (optTruthy selector) env.clickOk env (selector.getD "")
        ("Successfully clicked element using selector " ++ selector.getD "" ++ " (force)")) st :=
  strategy_block_eq (optTruthy selector) env.clickOk env (selector.getD "") _ st

theorem click_strategy_text_eq (env : ExecEnv) (text : Option String) (st : ClickSt) :
    click_strategy_text env text st =
      attemptOpt (strategyOutcome (optTruthy text) env.clickOk env
        ("text=\x22" ++ text.getD "" ++ "\x22")
        ("Successfully clicked element using text \x27" ++ text.getD "" ++ "\x27 (force)")) st :=
  strategy_block_eq (optTruthy text) env.clickOk env _ _ st

theorem click_strategy_aria_eq (env : ExecEnv) (ref : Option String) (st : ClickSt) :
    click_strategy_aria env ref st =
      attemptOpt (strategyOutcome (optTruthy ref) env.clickOk env
        ("[aria-ref=\x27" ++ ref.getD "" ++ "\x27]")
        ("Successfully clicked element " ++ ref.getD "" ++ " using aria-ref (force)")) st :=
  strategy_block_eq (optTruthy ref) env.clickOk env _ _ st

theorem click_strategy_snapshot_eq (env : ExecEnv) (snapData ref : Option String) (st : ClickSt) :
    click_strategy_snapshot_text env snapData ref st =
      attemptOpt
        (if optTruthy ref then
          match findRefText (pySplitOnNl (snapData.getD "")) ("[ref=" ++ ref.getD "" ++ "]") with
          | some t => strategyOutcome true env.clickOk env ("text=\x22" ++ t ++ "\x22")
              ("Successfully clicked element " ++ ref.getD "" ++ " using extracted text (force)")
          | none => none
        else none) st := by
  obtain ⟨succ, res⟩ := st
  cases succ
  · cases hr : optTruthy ref
    · simp [click_strategy_snapshot_text, attemptOpt, hr]
    · cases hf : findRefText (pySplitOnNl (snapData.getD "")) ("[ref=" ++ ref.getD "" ++ "]") with
      | none => simp [click_strategy_snapshot_text, attemptOpt, hr, hf]
      | some t =>
        simp only [click_strategy_snapshot_text, attemptOpt, strategyOutcome, hr, hf,
          Bool.not_false, Bool.and_true, if_true, Bool.true_and, Bool.false_eq_true, if_false]
        split_ifs <;> simp_all
  · simp [click_strategy_snapshot_text, attemptOpt]

theorem click_strategy_fallback_eq (env : ExecEnv) (st : ClickSt) :
    click_strategy_fallback env st =
      attemptOpt
        (match common_selectors.find? (fun sel => env.count sel > 0) with
         | some sel =>
           if env.clickOk sel then
             some ("Successfully clicked first " ++ sel ++ " element as fallback (force)")
           else none
         | none => none) st := by
  obtain ⟨succ, res⟩ := st
  cases succ <;> cases hf : common_selectors.find? (fun sel => env.count sel > 0) <;>
    simp [click_strategy_fallback, attemptOpt, hf] <;> split_ifs <;> simp_all

theorem type_strategy_selector_eq (env : ExecEnv) (selector : Option String)
    (text : String) (st : ClickSt) :
    type_strategy_selector env selector text st =
      attemptOpt (strategyOutcome (optTruthy selector) env.fillOk env (selector.getD "")
        ("Successfully typed \x27" ++ text ++ "\x27 into selector " ++ selector.getD "")) st :=
  strategy_block_eq (optTruthy selector) env.fillOk env _ _ st

theorem type_strategy_aria_eq (env : ExecEnv) (ref : Option String)
    (text : String) (st : ClickSt) :
    type_strategy_aria env ref text st =
      attemptOpt (strategyOutcome (optTruthy ref) env.fillOk env
        ("[aria-ref=\x27" ++ ref.getD "" ++ "\x27]")
        ("Successfully typed \x27" ++ text ++ "\x27 into element " ++ ref.getD "" ++ " using aria-ref")) st :=
  strategy_block_eq (optTruthy ref) env.fillOk env _ _ st

theorem type_strategy_fallback_eq (env : ExecEnv) (text : String) (st : ClickSt) :
    type_strategy_fallback env text st =
      attemptOpt
        (match input_selectors.find? (fun sel => env.count sel > 0) with
         | some sel =>
           if env.fillOk sel then
             some ("Successfully typed \x27" ++ text ++ "\x27 into " ++ sel ++ " element")
           else none
         | none => none) st := by
  obtain ⟨succ, res⟩ := st
  cases succ <;> cases hf : input_selectors.find? (fun sel => env.count sel > 0) <;>
    simp [type_strategy_fallback, attemptOpt, hf] <;> split_ifs <;> simp_all

/-- Folding strategy attempts over a not-yet-successful state yields
exactly the first successful strategy outcome. -/
theorem attempt_foldl (os : List (Option String)) (st : ClickSt) :
    (if (os.foldl (fun s o => attemptOpt o s) st).success then
      some (os.foldl (fun s o => attemptOpt o s) st).result
     else none) =
      (if st.success then some st.result else firstSome os) := by
  induction os generalizing st with
  | nil => simp [firstSome]
  | cons o rest ih =>
    simp only [List.foldl]
    rw [ih]
    obtain ⟨succ, res⟩ := st
    cases succ
    · cases o <;> simp [attemptOpt, firstSome]
    · simp [attemptOpt]

theorem clickOutcome_eq_clickSpec (env : ExecEnv) (snapData ref text selector : Option String) :
    clickOutcome env snapData ref text selector = clickSpec env snapData ref text selector := by
  unfold clickOutcome clickSpec clickFlow
  simp only [click_strategy_selector_eq, click_strategy_text_eq, click_strategy_aria_eq,
    click_strategy_snapshot_eq, click_strategy_fallback_eq]
  have h := attempt_foldl (clickStrategies env snapData ref text selector)
    { success := false, result := "Unknown action result" }
  simp only [clickStrategies, List.foldl] at h
  simpa using h

theorem typeOutcome_eq_typeSpec (env : ExecEnv) (ref selector : Option String) (text : String) :
    typeOutcome env ref selector text = typeSpec env ref selector text := by
  unfold typeOutcome typeSpec typeFlow
  simp only [type_strategy_selector_eq, type_strategy_aria_eq, type_strategy_fallback_eq]
  have h := attempt_foldl (typeStrategies env ref selector text)
    { success := false, result := "Unknown action result" }
  simp only [typeStrategies, List.foldl] at h
  simpa using h

/-- `dispatch` never reads the post-action capture environment. -/
theorem dispatch_capEnv (env : ExecEnv) (c : CaptureEnv) (st : SnapState)
    (a : Action) (t : String) :
    dispatch { env with capEnv := c } st a t = dispatch env st a t := by
  cases env
  rfl

/-! ## Claim C1 -/

/-- C1: click resolution equals the ordered first-success composition of
the five specified strategies; a selector whose locator matches zero
elements makes resolution fall through exactly as if no selector had been
given; and when every strategy fails, `execute_action` returns the
explicit element-not-found error outcome. -/
theorem C1_click_strategy_order :
    (∀ (env : ExecEnv) (snapData ref text selector : Option String),
      clickOutcome env snapData ref text selector = clickSpec env snapData ref text selector) ∧
    (∀ (env : ExecEnv) (snapData ref text : Option String) (sel : String),
      env.count sel = 0 →
      clickOutcome env snapData ref text (some sel) = clickOutcome env snapData ref text none) ∧
    (∀ (env : ExecEnv) (st : SnapState) (a : Action),
      a.type = some "click" →
      (optTruthy a.ref || optTruthy a.text || optTruthy a.selector) = true →
      clickOutcome env st.snapshot_data a.ref a.text a.selector = none →
      execute_action env st (some a) =
        { result := "Error: Could not find and click element", post_capture := false,
          state := st }) := by
  refine ⟨clickOutcome_eq_clickSpec, ?_, ?_⟩
  · intro env snapData ref text sel h
    rw [clickOutcome_eq_clickSpec, clickOutcome_eq_clickSpec]
    simp [clickSpec, clickStrategies, strategyOutcome, h, optTruthy]
  · intro env st a hty hval hout
    have hsucc : (clickFlow env st.snapshot_data a.ref a.text a.selector).success = false := by
      cases h : (clickFlow env st.snapshot_data a.ref a.text a.selector).success
      · rfl
      · exfalso
        simp [clickOutcome, h] at hout
    simp [execute_action, dispatch, hty, hval, hsucc, optTruthy_some]

/-- A page where only the exact-text locator for "Go" matches. -/
def envC1 : ExecEnv :=
  { count := fun s => if s = "text=\x22Go\x22" then 1 else 0,
    clickOk := fun _ => true, fillOk := fun _ => true,
    selErr := fun _ => none, waitSelErr := fun _ => none, textContent := fun _ => none,
    scrollErr := none, focusErr := fun _ => none, pressErr := none, gotoErr := fun _ => none,
    navCapEnv := { pre_ok := true, direct := some "nav", title := "t", url := "u", body := some "b" },
    capEnv := { pre_ok := true, direct := some "post", title := "t", url := "u", body := some "b" } }

/-- A page where no locator matches anything. -/
def envNoMatch : ExecEnv :=
  { envC1 with count := fun _ => 0 }

/-- A click action that carries only a ref. -/
def actClickRef : Action := { type := some "click", ref := some "e1" }

theorem C1_click_strategy_order_witness :
    clickOutcome envC1 none (some "e1") (some "Go") (some "#x") =
      clickSpec envC1 none (some "e1") (some "Go") (some "#x") ∧
    (envC1.count "#x" = 0 ∧
      clickOutcome envC1 none (some "e1") (some "Go") (some "#x") =
        clickOutcome envC1 none (some "e1") (some "Go") none) ∧
    execute_action envNoMatch { snapshot_data := none } (some actClickRef) =
      { result := "Error: Could not find and click element", post_capture := false,
        state := { snapshot_data := none } } :=
  ⟨C1_click_strategy_order.1 envC1 none (some "e1") (some "Go") (some "#x"),
   ⟨by decide, C1_click_strategy_order.2.1 envC1 none (some "e1") (some "Go") "#x" (by decide)⟩,
   C1_click_strategy_order.2.2 envNoMatch { snapshot_data := none } actClickRef rfl
     (by decide) (by decide)⟩

/-! ## Claim C7 -/

/-- C7 counterexample: a click action none of whose strategies finds an
element returns through the early `return`, so `execute_action` triggers
no post-action snapshot capture at all (`post_capture = false`, state
unchanged) — the claim says every call triggers one. -/
theorem C7_counterexample :
    execute_action envNoMatch { snapshot_data := some "stale" } (some actClickRef) =
      { result := "Error: Could not find and click element", post_capture := false,
        state := { snapshot_data := some "stale" } } := by
  decide

/-- C7 (amended): the post-action capture runs exactly on the paths that
complete the dispatch — successful outcomes (e.g. a resolved click, a
`finish` echo) and outcomes produced by the exception wrapper (e.g. a
raising scroll) — while early validation/not-found returns skip it; and
the returned outcome and the post-capture flag never depend on the
post-action capture's own environment. -/
theorem C7_post_action_capture :
    (∀ (env : ExecEnv) (st : SnapState) (a : Action),
      a.type = some "finish" →
      execute_action env st (some a) =
        { result := "Task finished: " ++ a.summary.getD "Task completed",
          post_capture := true, state := (capture st env.capEnv false false false).2 }) ∧
    (∀ (env : ExecEnv) (st : SnapState) (a : Action) (r : String),
      a.type = some "click" →
      (optTruthy a.ref || optTruthy a.text || optTruthy a.selector) = true →
      clickOutcome env st.snapshot_data a.ref a.text a.selector = some r →
      execute_action env st (some a) =
        { result := r, post_capture := true,
          state := (capture st env.capEnv false false false).2 }) ∧
    (∀ (env : ExecEnv) (st : SnapState) (a : Action),
      a.type = some "click" →
      (optTruthy a.ref || optTruthy a.text || optTruthy a.selector) = true →
      clickOutcome env st.snapshot_data a.ref a.text a.selector = none →
      execute_action env st (some a) =
        { result := "Error: Could not find and click element", post_capture := false,
          state := st }) ∧
    (∀ (env : ExecEnv) (st : SnapState) (a : Action) (m : String),
      a.type = some "scroll" → env.scrollErr = some m →
      execute_action env st (some a) =
        { result := "Error executing scroll: " ++ m, post_capture := true,
          state := (capture st env.capEnv false false false).2 }) ∧
    (∀ (env : ExecEnv) (c : CaptureEnv) (st : SnapState) (a : Option Action),
      (execute_action { env with capEnv := c } st a).result =
        (execute_action env st a).result ∧
      (execute_action { env with capEnv := c } st a).post_capture =
        (execute_action env st a).post_capture) := by
  refine ⟨?_, ?_, ?_, ?_, ?_⟩
  · intro env st a hty
    simp [execute_action, dispatch, hty, optTruthy_some]
  · intro env st a r hty hval hout
    have hsucc : (clickFlow env st.snapshot_data a.ref a.text a.selector).success = true := by
      cases h : (clickFlow env st.snapshot_data a.ref a.text a.selector).success
      · exfalso
        simp [clickOutcome, h] at hout
      · rfl
    have hres : (clickFlow env st.snapshot_data a.ref a.text a.selector).result = r := by
      simp [clickOutcome, hsucc] at hout
      exact hout
    simp [execute_action, dispatch, hty, hval, hsucc, hres, optTruthy_some]
  · intro env st a hty hval hout
    have hsucc : (clickFlow env st.snapshot_data a.ref a.text a.selector).success = false := by
      cases h : (clickFlow env st.snapshot_data a.ref a.text a.selector).success
      · rfl
      · exfalso
        simp [clickOutcome, h] at hout
    simp [execute_action, dispatch, hty, hval, hsucc, optTruthy_some]
  · intro env st a m hty hm
    simp [execute_action, dispatch, hty, hm, optTruthy_some]
  · intro env c st a
    cases a with
    | none => exact ⟨rfl, rfl⟩
    | some a =>
      simp only [execute_action, dispatch_capEnv]
      constructor
      · split_ifs <;> rfl
      · split_ifs <;> rfl

/-- A finish action with a summary. -/
def actFinish : Action := { type := some "finish", summary := some "done" }

/-- A click action targeting visible text. -/
def actClickText : Action := { type := some "click", text := some "Go" }

/-- A bare scroll action. -/
def actScroll : Action := { type := some "scroll" }

/-- `envC1` with a raising scroll evaluation. -/
def envScrollErr : ExecEnv := { envC1 with scrollErr := some "boom" }

/-- An alternative post-action capture environment (a failing one). -/
def capEnvAlt : CaptureEnv :=
  { pre_ok := false, direct := none, title := "x", url := "y", body := none }

theorem C7_post_action_capture_witness :
    execute_action envC1 { snapshot_data := none } (some actFinish) =
      { result := "Task finished: done", post_capture := true,
        state := (capture { snapshot_data := none } envC1.capEnv false false false).2 } ∧
    execute_action envC1 { snapshot_data := none } (some actClickText) =
      { result := "Successfully clicked element using text \x27Go\x27 (force)",
        post_capture := true,
        state := (capture { snapshot_data := none } envC1.capEnv false false false).2 } ∧
    execute_action envScrollErr { snapshot_data := none } (some actScroll) =
      { result := "Error executing scroll: boom", post_capture := true,
        state := (capture { snapshot_data := none } envScrollErr.capEnv false false false).2 } ∧
    (execute_action { envC1 with capEnv := capEnvAlt }
        { snapshot_data := none } (some actFinish)).result =
      (execute_action envC1 { snapshot_data := none } (some actFinish)).result := by
  refine ⟨?_, ?_, ?_, ?_⟩
  · have h := C7_post_action_capture.1 envC1 { snapshot_data := none } actFinish rfl
    simpa using h
  · have h := C7_post_action_capture.2.1 envC1 { snapshot_data := none } actClickText
      "Successfully clicked element using text \x27Go\x27 (force)" rfl (by decide) (by decide)
    simpa using h
  · have h := C7_post_action_capture.2.2.2.1 envScrollErr { snapshot_data := none }
      actScroll "boom" rfl rfl
    simpa using h
  · exact (C7_post_action_capture.2.2.2.2 envC1 capEnvAlt
      { snapshot_data := none } (some actFinish)).1

/-! ## Claim C8 -/

/-- An environment whose select primitive fails on the explicit selector
but would succeed on the aria-ref attribute. -/
def envSel : ExecEnv :=
  { envC1 with selErr := fun s => if s = "#broken" then some "boom" else none }

/-- A select action carrying both a failing selector and a workable ref. -/
def actSel : Action :=
  { type := some "select", ref := some "e9", selector := some "#broken", value := some "v" }

/-- C8 counterexample: for a `select` action carrying both a selector and a
ref, the code makes a single attempt on the selector and reports its
failure even though the ref-based attribute would have succeeded — the
ref strategy is never tried, contradicting the claimed
selector-then-ref fallback. -/
theorem C8_counterexample :
    execute_action envSel { snapshot_data := none } (some actSel) =
      { result := "Select operation failed: boom", post_capture := false,
        state := { snapshot_data := none } } ∧
    envSel.selErr "[aria-ref=\x27e9\x27]" = none := by
  exact ⟨by decide, by decide⟩

/-- C8 (amended): for `type`, resolution is the ordered first-success
composition selector → aria-ref → generic input fallback; for `select`,
a single attempt is made on the explicit selector when present and
otherwise on the aria-ref attribute (no fallback from one to the other and
no generic fallback); a `type` or `select` action with neither ref nor
selector is rejected with a local validation error, with no interaction
attempt and no post-action capture. -/
theorem C8_type_select_resolution :
    (∀ (env : ExecEnv) (ref selector : Option String) (text : String),
      typeOutcome env ref selector text = typeSpec env ref selector text) ∧
    (∀ (env : ExecEnv) (st : SnapState) (a : Action),
      a.type = some "select" → optTruthy a.selector = true →
      execute_action env st (some a) =
        (match env.selErr (a.selector.getD "") with
         | some m => { result := "Select operation failed: " ++ m, post_capture := false,
                       state := st }
         | none => { result := "Successfully selected \x27" ++ a.value.getD "" ++ "\x27 in element",
                     post_capture := true,
                     state := (capture st env.capEnv false false false).2 })) ∧
    (∀ (env : ExecEnv) (st : SnapState) (a : Action),
      a.type = some "select" → optTruthy a.selector = false → optTruthy a.ref = true →
      execute_action env st (some a) =
        (match env.selErr ("[aria-ref=\x27" ++ a.ref.getD "" ++ "\x27]") with
         | some m => { result := "Select operation failed: " ++ m, post_capture := false,
                       state := st }
         | none => { result := "Successfully selected \x27" ++ a.value.getD "" ++ "\x27 in element",
                     post_capture := true,
                     state := (capture st env.capEnv false false false).2 })) ∧
    (∀ (env : ExecEnv) (st : SnapState) (a : Action),
      a.type = some "type" → optTruthy a.ref = false → optTruthy a.selector = false →
      execute_action env st (some a) =
        { result := "Error: No ref or selector specified for type action",
          post_capture := false, state := st }) ∧
    (∀ (env : ExecEnv) (st : SnapState) (a : Action),
      a.type = some "select" → optTruthy a.ref = false → optTruthy a.selector = false →
      execute_action env st (some a) =
        { result := "Error: No ref or selector specified for select action",
          post_capture := false, state := st }) := by
  refine ⟨typeOutcome_eq_typeSpec, ?_, ?_, ?_, ?_⟩
  · intro env st a hty hsel
    cases h : env.selErr (a.selector.getD "") <;>
      simp [execute_action, dispatch, hty, hsel, h, optTruthy_some]
  · intro env st a hty hsel href
    cases h : env.selErr ("[aria-ref=\x27" ++ a.ref.getD "" ++ "\x27]") <;>
      simp [execute_action, dispatch, hty, hsel, href, h, optTruthy_some]
  · intro env st a hty href hsel
    simp [execute_action, dispatch, hty, href, hsel, optTruthy_some]
  · intro env st a hty href hsel
    simp [execute_action, dispatch, hty, href, hsel, optTruthy_some]

/-- A select action carrying only a ref. -/
def actSelRef : Action := { type := some "select", ref := some "e9", value := some "v" }

/-- A type action with no target, and a select action with no target. -/
def actTypeEmpty : Action := { type := some "type", text := some "hi" }

def actSelEmpty : Action := { type := some "select", value := some "v" }

theorem C8_type_select_resolution_witness :
    typeOutcome envC1 (some "e1") (some "#i") "hi" =
      typeSpec envC1 (some "e1") (some "#i") "hi" ∧
    execute_action envSel { snapshot_data := none } (some actSel) =
      { result := "Select operation failed: boom", post_capture := false,
        state := { snapshot_data := none } } ∧
    execute_action envSel { snapshot_data := none } (some actSelRef) =
      { result := "Successfully selected \x27v\x27 in element", post_capture := true,
        state := (capture { snapshot_data := none } envSel.capEnv false false false).2 } ∧
    execute_action envC1 { snapshot_data := none } (some actTypeEmpty) =
      { result := "Error: No ref or selector specified for type action",
        post_capture := false, state := { snapshot_data := none } } ∧
    execute_action envC1 { snapshot_data := none } (some actSelEmpty) =
      { result := "Error: No ref or selector specified for select action",
        post_capture := false, state := { snapshot_data := none } } := by
  refine ⟨?_, ?_, ?_, ?_, ?_⟩
  · exact C8_type_select_resolution.1 envC1 (some "e1") (some "#i") "hi"
  · have h := C8_type_select_resolution.2.1 envSel { snapshot_data := none } actSel rfl
      (by decide)
    simpa using h
  · have h := C8_type_select_resolution.2.2.1 envSel { snapshot_data := none } actSelRef rfl
      rfl (by decide)
    simpa using h
  · exact C8_type_select_resolution.2.2.2.1 envC1 { snapshot_data := none } actTypeEmpty
      rfl rfl rfl
  · exact C8_type_select_resolution.2.2.2.2 envC1 { snapshot_data := none } actSelEmpty
      rfl rfl rfl

/-! ## Orchestration-loop lemmas -/

/-- Unfolding of one loop iteration on a `finish` action: the loop stops,
surfacing the summary, without executing anything. -/
theorem loopAux_finish (env : LoopEnv) (fuel count execs : Nat) (a : Action) (cur : String)
    (hist : List HistoryEntry) (hfin : a.type = some "finish") :
    loopAux env (fuel + 1) (some a) cur hist count execs =
      { exit := .finished (a.summary.getD "No summary provided"), history := hist,
        execCount := execs } := by
  simp only [loopAux]
  rw [if_pos hfin]

/-- Unfolding of one loop iteration on a non-finish action whose
post-action current snapshot is clean: the action executes, a history
entry with the derived success flag is appended, and the loop proceeds
with the planner's next action. -/
theorem loopAux_step (env : LoopEnv) (fuel count execs : Nat) (a : Action) (cur : String)
    (hist : List HistoryEntry) (ha : a.type ≠ some "finish")
    (hcur2 : containsSub (nextSnapshot env count a cur) "Error:" = false) :
    loopAux env (fuel + 1) (some a) cur hist count execs =
      loopAux env fuel (env.nextAction count) (nextSnapshot env count a cur)
        (hist ++ [⟨a, env.exec count a, !(containsSub (env.exec count a) "Error")⟩])
        (count + 1) (execs + 1) := by
  simp only [loopAux]
  rw [if_neg ha, if_neg (by simp [hcur2])]

/-- Unfolding of one loop iteration on a non-finish action whose
post-action current snapshot contains the error marker: the loop breaks. -/
theorem loopAux_abort (env : LoopEnv) (fuel count execs : Nat) (a : Action) (cur : String)
    (hist : List HistoryEntry) (ha : a.type ≠ some "finish")
    (hcur2 : containsSub (nextSnapshot env count a cur) "Error:" = true) :
    loopAux env (fuel + 1) (some a) cur hist count execs =
      { exit := .snapshotAbort,
        history := hist ++ [⟨a, env.exec count a, !(containsSub (env.exec count a) "Error")⟩],
        execCount := execs + 1 } := by
  simp only [loopAux]
  rw [if_neg ha, if_pos hcur2]

/-- When the planner never finishes nor fails and every capture is clean,
the loop burns its whole fuel, executing one action per unit. -/
theorem loopAux_budget (env : LoopEnv)
    (hnext : ∀ k a, env.nextAction k = some a → a.type ≠ some "finish")
    (hsome : ∀ k, env.nextAction k ≠ none)
    (hcap : ∀ k, containsSub (env.recapture k) "Error:" = false) :
    ∀ (fuel count execs : Nat) (a : Action) (cur : String) (hist : List HistoryEntry),
      a.type ≠ some "finish" →
      containsSub cur "Error:" = false →
      (loopAux env fuel (some a) cur hist count execs).exit = .budget ∧
      (loopAux env fuel (some a) cur hist count execs).execCount = execs + fuel ∧
      (loopAux env fuel (some a) cur hist count execs).history.length =
        hist.length + fuel := by
  intro fuel
  induction fuel with
  | zero =>
    intro count execs a cur hist ha hcur
    simp [loopAux]
  | succ fuel ih =>
    intro count execs a cur hist ha hcur
    have hcur2 : containsSub (nextSnapshot env count a cur) "Error:" = false := by
      unfold nextSnapshot
      split_ifs
      · exact hcap count
      · exact hcur
    rw [loopAux_step env fuel count execs a cur hist ha hcur2]
    obtain ⟨a2, ha2⟩ : ∃ a2, env.nextAction count = some a2 := by
      cases h : env.nextAction count
      · exact absurd h (hsome count)
      · exact ⟨_, rfl⟩
    rw [ha2]
    have h3 := ih (count + 1) (execs + 1) a2 (nextSnapshot env count a cur)
      (hist ++ [⟨a, env.exec count a, !(containsSub (env.exec count a) "Error")⟩])
      (hnext count a2 ha2) hcur2
    refine ⟨h3.1, ?_, ?_⟩
    · rw [h3.2.1]
      omega
    · rw [h3.2.2]
      simp
      omega

/-- With a clean current snapshot and clean recaptures the loop never
aborts on a snapshot error. -/
theorem loopAux_no_abort (env : LoopEnv)
    (hcap : ∀ k, containsSub (env.recapture k) "Error:" = false) :
    ∀ (fuel : Nat) (act : Option Action) (cur : String) (hist : List HistoryEntry)
      (count execs : Nat), containsSub cur "Error:" = false →
      (loopAux env fuel act cur hist count execs).exit ≠ .abortedInitial ∧
      (loopAux env fuel act cur hist count execs).exit ≠ .snapshotAbort := by
  intro fuel
  induction fuel with
  | zero =>
    intro act cur hist count execs hcur
    cases act <;> simp [loopAux]
  | succ fuel ih =>
    intro act cur hist count execs hcur
    cases act with
    | none => simp [loopAux]
    | some a =>
      by_cases ha : a.type = some "finish"
      · rw [loopAux_finish env fuel count execs a cur hist ha]
        simp
      · have hcur2 : containsSub (nextSnapshot env count a cur) "Error:" = false := by
          unfold nextSnapshot
          split_ifs
          · exact hcap count
          · exact hcur
        rw [loopAux_step env fuel count execs a cur hist ha hcur2]
        exact ih (env.nextAction count) (nextSnapshot env count a cur)
          (hist ++ [⟨a, env.exec count a, !(containsSub (env.exec count a) "Error")⟩])
          (count + 1) (execs + 1) hcur2

/-! ## Claim C3 -/

/-- C3: when the initial capture and every recapture are free of the error
marker and the planner always returns a non-finish action, the loop stops
by exhausting the 15-action budget, having executed exactly 15 actions and
recorded exactly 15 history entries. -/
theorem C3_budget_termination (env : LoopEnv) (a0 : Action)
    (hcap0 : containsSub env.initialCapture "Error:" = false)
    (hinit : env.initialAction = some a0) (ha0 : a0.type ≠ some "finish")
    (hnext : ∀ k a, env.nextAction k = some a → a.type ≠ some "finish")
    (hsome : ∀ k, env.nextAction k ≠ none)
    (hcap : ∀ k, containsSub (env.recapture k) "Error:" = false) :
    (process_command env).exit = .budget ∧
    (process_command env).execCount = 15 ∧
    (process_command env).history.length = 15 := by
  unfold process_command
  rw [if_neg (by simp [hcap0]), hinit]
  have h := loopAux_budget env hnext hsome hcap 15 0 0 a0 env.initialCapture [] ha0 hcap0
  simpa using h

/-- An environment whose planner always clicks and whose captures always
succeed. -/
def lenvBudget : LoopEnv :=
  { initialCapture := "- Page Snapshot", initialAction := some actClickRef,
    exec := fun _ _ => "clicked ok", recapture := fun _ => "- Page Snapshot fresh",
    nextAction := fun _ => some actClickRef }

theorem C3_budget_termination_witness :
    (process_command lenvBudget).exit = .budget ∧
    (process_command lenvBudget).execCount = 15 ∧
    (process_command lenvBudget).history.length = 15 :=
  C3_budget_termination lenvBudget actClickRef (by decide) rfl (by decide)
    (fun k a h => (Option.some.inj h) ▸ (by decide : actClickRef.type ≠ some "finish"))
    (fun _ => by simp only [lenvBudget]; decide) (fun _ => by simp only [lenvBudget]; decide)

/-! ## Claim C4 -/

/-- C4: a `finish` action arriving as the very first planning response
ends the run with the surfaced summary and zero action executions; more
generally, a loop iteration whose current action is `finish` stops before
executing anything. -/
theorem C4_finish_short_circuit :
    (∀ (env : LoopEnv) (a : Action),
      containsSub env.initialCapture "Error:" = false →
      env.initialAction = some a → a.type = some "finish" →
      process_command env =
        { exit := .finished (a.summary.getD "No summary provided"), history := [],
          execCount := 0 }) ∧
    (∀ (env : LoopEnv) (fuel count execs : Nat) (a : Action) (cur : String)
        (hist : List HistoryEntry), a.type = some "finish" →
      loopAux env (fuel + 1) (some a) cur hist count execs =
        { exit := .finished (a.summary.getD "No summary provided"), history := hist,
          execCount := execs }) := by
  constructor
  · intro env a hcap hinit hfin
    unfold process_command
    rw [if_neg (by simp [hcap]), hinit, show (15 : Nat) = 14 + 1 from rfl]
    exact loopAux_finish env 14 0 0 a env.initialCapture [] hfin
  · intro env fuel count execs a cur hist hfin
    exact loopAux_finish env fuel count execs a cur hist hfin

/-- `lenvBudget` with a `finish` initial action. -/
def lenvFinish : LoopEnv := { lenvBudget with initialAction := some actFinish }

theorem C4_finish_short_circuit_witness :
    process_command lenvFinish =
      { exit := .finished "done", history := [], execCount := 0 } ∧
    loopAux lenvBudget 1 (some actFinish) "- x" [] 3 2 =
      { exit := .finished "done", history := [], execCount := 2 } := by
  constructor
  · have h := C4_finish_short_circuit.1 lenvFinish actFinish (by decide) rfl rfl
    simpa using h
  · have h := C4_finish_short_circuit.2 lenvBudget 0 3 2 actFinish "- x" [] rfl
    simpa using h

/-! ## Claim C5 -/

/-- C5: an executed action whose outcome contains "Error" is recorded as a
history entry with `success = false` — the flag being exactly the negated
"Error"-substring test — after which the loop proceeds to the next
planning round (it re-captures and asks the planner for the next action,
never re-attempting the same action); an outcome without "Error" is
recorded with `success = true`. -/
theorem C5_failed_action_recording :
    (∀ (env : LoopEnv) (fuel count execs : Nat) (a : Action) (cur : String)
        (hist : List HistoryEntry),
      a.type ≠ some "finish" →
      containsSub (env.exec count a) "Error" = true →
      containsSub (env.recapture count) "Error:" = false →
      loopAux env (fuel + 1) (some a) cur hist count execs =
        loopAux env fuel (env.nextAction count) (env.recapture count)
          (hist ++ [{ action := a, result := env.exec count a, success := false }])
          (count + 1) (execs + 1)) ∧
    (∀ (env : LoopEnv) (fuel count execs : Nat) (a : Action) (cur : String)
        (hist : List HistoryEntry),
      a.type ≠ some "finish" →
      containsSub (env.exec count a) "Error" = false →
      containsSub (if should_update_snapshot a then env.recapture count else cur)
        "Error:" = false →
      loopAux env (fuel + 1) (some a) cur hist count execs =
        loopAux env fuel (env.nextAction count)
          (if should_update_snapshot a then env.recapture count else cur)
          (hist ++ [{ action := a, result := env.exec count a, success := true }])
          (count + 1) (execs + 1)) := by
  constructor
  · intro env fuel count execs a cur hist ha herr hcap
    have h := loopAux_step env fuel count execs a cur hist ha
      (by simpa [nextSnapshot, herr] using hcap)
    simpa [nextSnapshot, herr] using h
  · intro env fuel count execs a cur hist ha hok hcur
    have h := loopAux_step env fuel count execs a cur hist ha
      (by simpa [nextSnapshot, hok] using hcur)
    simpa [nextSnapshot, hok] using h

/-- `lenvBudget` with a failing action executor. -/
def lenvFail : LoopEnv :=
  { lenvBudget with exec := fun _ _ => "Error: Could not find and click element" }

theorem C5_failed_action_recording_witness :
    loopAux lenvFail 3 (some actClickRef) "- cur" [] 0 0 =
      loopAux lenvFail 2 (lenvFail.nextAction 0) (lenvFail.recapture 0)
        [{ action := actClickRef, result := "Error: Could not find and click element",
           success := false }] 1 1 ∧
    loopAux lenvBudget 3 (some actClickRef) "- cur" [] 0 0 =
      loopAux lenvBudget 2 (lenvBudget.nextAction 0)
        (if should_update_snapshot actClickRef then lenvBudget.recapture 0 else "- cur")
        [{ action := actClickRef, result := "clicked ok", success := true }] 1 1 := by
  constructor
  · have h := C5_failed_action_recording.1 lenvFail 2 0 0 actClickRef "- cur" []
      (by decide) (by decide) (by decide)
    simpa using h
  · have h := C5_failed_action_recording.2 lenvBudget 2 0 0 actClickRef "- cur" []
      (by decide) (by decide) (by decide)
    simpa using h

/-! ## Claim C6 -/

/-- A run whose very first (and only consulted) capture returns the error
string; recaptures would all succeed. -/
def lenvInitErr : LoopEnv :=
  { lenvBudget with initialCapture := "Error: Could not capture page snapshot" }

/-- C6 counterexample: a single capture returning an error string — the
initial one — terminates the run by itself (no second error in direct
succession is needed), contradicting the claimed
twice-in-direct-succession abort condition. -/
theorem C6_counterexample :
    process_command lenvInitErr =
      { exit := .abortedInitial, history := [], execCount := 0 } ∧
    containsSub (lenvInitErr.recapture 0) "Error:" = false := by
  exact ⟨by decide, by decide⟩

/-- C6 (amended): the run aborts on snapshot failure as soon as one
checked capture returns an error string — immediately when the initial
capture contains "Error:", and with a `break` when the stored current
snapshot after an action contains "Error:"; conversely, with a clean
initial capture and clean recaptures no snapshot abort occurs, the
remaining terminal conditions being an explicit finish action, the step
budget, and the planner returning no action. -/
theorem C6_single_error_abort :
    (∀ env : LoopEnv, containsSub env.initialCapture "Error:" = true →
      process_command env = { exit := .abortedInitial, history := [], execCount := 0 }) ∧
    (∀ (env : LoopEnv) (fuel count execs : Nat) (a : Action) (cur : String)
        (hist : List HistoryEntry),
      a.type ≠ some "finish" →
      containsSub (if containsSub (env.exec count a) "Error" || should_update_snapshot a
          then env.recapture count else cur) "Error:" = true →
      loopAux env (fuel + 1) (some a) cur hist count execs =
        { exit := .snapshotAbort,
          history := hist ++ [⟨a, env.exec count a, !(containsSub (env.exec count a) "Error")⟩],
          execCount := execs + 1 }) ∧
    (∀ env : LoopEnv, containsSub env.initialCapture "Error:" = false →
      (∀ k, containsSub (env.recapture k) "Error:" = false) →
      (process_command env).exit ≠ .abortedInitial ∧
      (process_command env).exit ≠ .snapshotAbort) := by
  refine ⟨?_, ?_, ?_⟩
  · intro env h
    unfold process_command
    rw [if_pos h]
  · intro env fuel count execs a cur hist ha hcur2
    exact loopAux_abort env fuel count execs a cur hist ha
      (by simpa [nextSnapshot] using hcur2)
  · intro env hcap0 hcap
    unfold process_command
    rw [if_neg (by simp [hcap0])]
    exact loopAux_no_abort env hcap 15 env.initialAction env.initialCapture [] 0 0 hcap0

/-- `lenvBudget` with recaptures that fail. -/
def lenvErrCap : LoopEnv :=
  { lenvBudget with recapture := fun _ => "Error: Could not capture page snapshot" }

theorem C6_single_error_abort_witness :
    process_command lenvInitErr =
      { exit := .abortedInitial, history := [], execCount := 0 } ∧
    loopAux lenvErrCap 1 (some actClickRef) "- ok" [] 0 0 =
      { exit := .snapshotAbort,
        history := [{ action := actClickRef, result := "clicked ok", success := true }],
        execCount := 1 } ∧
    (process_command lenvBudget).exit ≠ .abortedInitial ∧
    (process_command lenvBudget).exit ≠ .snapshotAbort := by
  refine ⟨?_, ?_, ?_⟩
  · exact C6_single_error_abort.1 lenvInitErr (by decide)
  · have h := C6_single_error_abort.2.1 lenvErrCap 0 0 0 actClickRef "- ok" []
      (by decide) (by decide)
    simpa using h
  · exact C6_single_error_abort.2.2 lenvBudget (by decide)
      (fun _ => by simp only [lenvBudget]; decide)

end DomAgent
